import Mathlib

/-!
Verification development for the Sudan-MM-2025 data-collection automator.

The repository is a Streamlit workflow over Google Drive / Google Sheets:
`sheets_api.py` allocates sequential IDs by scanning a spreadsheet tab,
`media_validator.py` checks file extensions and media durations, and
`app.py` orchestrates validate → allocate → upload → append → cleanup.

This file gives a shallow embedding of those parts in Lean:
* spreadsheet cells are `String`s, a tab is a `List (List String)` of rows;
* Python string primitives used by the code (`str.strip`, `str.split('_')`,
  `int(...)`, `os.path.splitext`, `str.lower`) are modelled character-exactly
  over `List Char` (restricted to ASCII, which is all the code ever feeds them);
* media durations are rationals: every finite float is a rational and the
  comparisons against the literal bounds 3/10/5/15 agree with rational order;
* the external services (decoder, Drive upload, Sheets append, OS deletion)
  are oracles in an environment record, and the submission handler of
  `app.py::main` becomes a pure function from that environment to a result
  record describing the visible effects (error shown, uploads performed,
  ledger rows appended, temp files remaining).
-/

namespace SudanMM

/-- The two submission modes offered by the UI radio button in `app.py`. -/
inductive Mode
  | image
  | video
deriving DecidableEq, Repr

/-- The mode prefix: `'img_' if mode == 'Image' else 'vid_'` (app.py, sheets_api.py). -/
def modePrefix (mode : Mode) : String :=
  if mode = Mode.image then "img_" else "vid_"

/-! ### Python string primitives, modelled over `List Char` -/

/-- The ASCII whitespace characters that Python's `str.strip()` removes
(restricted to ASCII; the cells this code strips are ASCII). -/
def isPySpace (c : Char) : Bool :=
  c = ' ' || c = '\t' || c = '\n' || c = '\x0d' || c = '\x0b' || c = '\x0c'

/-- Python `str.strip()`: drop leading and trailing whitespace. -/
def stripChars (l : List Char) : List Char :=
  ((l.dropWhile isPySpace).reverse.dropWhile isPySpace).reverse

/-- Python `str.strip()` on a `String`. -/
def pyStripS (s : String) : String :=
  String.mk (stripChars s.data)

/-- Python `s.split(sep)` for a single-character separator `sep` and no
maxsplit: `"".split('_') = [""]`, `"a_b".split('_') = ["a","b"]`, etc. -/
def pySplitChar (c : Char) : List Char → List (List Char)
  | [] => [[]]
  | x :: xs =>
    let r := pySplitChar c xs
    if x = c then [] :: r
    else
      match r with
      | h :: t => (x :: h) :: t
      | [] => [[x]]

/-- ASCII decimal digits — the characters Python's `int(...)` accepts in the
ASCII range. (Unicode decimals, which `int` also accepts, cannot occur here.) -/
def isDigitChar (c : Char) : Bool :=
  c ∈ ['0', '1', '2', '3', '4', '5', '6', '7', '8', '9']

/-- Nonempty all-digit character list. -/
def isDigits (l : List Char) : Bool :=
  !l.isEmpty && l.all isDigitChar

/-- Value of an all-digit character list read in base 10. -/
def digitsVal (l : List Char) : Nat :=
  l.foldl (fun a c => a * 10 + (c.toNat - '0'.toNat)) 0

/-- Python `int(s)` on a string known to contain no underscore (true of every
`'_'`-split component): strip whitespace, allow one leading sign, then a
nonempty run of digits; anything else raises `ValueError`, modelled as `none`. -/
def pyInt? (l : List Char) : Option Int :=
  let t := stripChars l
  if isDigits t then some (digitsVal t : Int)
  else
    match t with
    | '-' :: rest => if isDigits rest then some (-(digitsVal rest : Int)) else none
    | '+' :: rest => if isDigits rest then some (digitsVal rest : Int) else none
    | _ => none

/-! ### `sheets_api.SheetsAPI.get_max_id` and the ledger -/

/-- One iteration of the scan in `get_max_id`, for the first cell of a row:
`id_str = str(row[0]).strip()`, then if it starts with the mode prefix, take
`int(id_str.split('_')[1])`, skipping the row on `ValueError`/`IndexError`. -/
def parseIdNum (pfx : String) (cell : String) : Option Int :=
  let idStr := stripChars cell.data
  if pfx.data.isPrefixOf idStr then
    match (pySplitChar '_' idStr).get? 1 with
    | some comp => pyInt? comp
    | none => none
  else none

/-- The loop body of `get_max_id`: rows that are empty lists (`if row and
len(row) > 0`), or whose first cell fails to parse, leave the accumulator
unchanged; otherwise `max_id = max(max_id, num)`. -/
def maxStep (pfx : String) (acc : Int) (row : List String) : Int :=
  match row.head?.bind (parseIdNum pfx) with
  | some num => max acc num
  | none => acc

/-- The `for row in rows[1:]` loop of `get_max_id`, started at `max_id = 0`. -/
def maxFold (pfx : String) (rows : List (List String)) (acc : Int) : Int :=
  rows.foldl (maxStep pfx) acc

/-- Body of `SheetsAPI.get_max_id` after the rows have been read:
`if len(rows) <= 1: return 0`, else scan `rows[1:]` for the mode's prefix. -/
def get_max_id_rows (mode : Mode) (rows : List (List String)) : Int :=
  if rows.length ≤ 1 then 0
  else maxFold (modePrefix mode) (rows.drop 1) 0

/-- The spreadsheet ledger: the two tabs created by
`SheetsAPI.create_spreadsheet` (`Images` and `Videos`), each a list of rows. -/
structure Ledger where
  images : List (List String)
  videos : List (List String)
deriving DecidableEq, Repr

/-- Model of `SheetsAPI.read_sheet` for a mode's tab: a values `GET`, which returns the
rows and leaves the spreadsheet untouched (state passed explicitly). -/
def read_sheet (led : Ledger) (mode : Mode) : List (List String) × Ledger :=
  (if mode = Mode.image then led.images else led.videos, led)

/-- Model of `SheetsAPI.get_max_id`: pick the tab from the mode, read all rows, scan. -/
def get_max_id (led : Ledger) (mode : Mode) : Int × Ledger :=
  let r := read_sheet led mode
  (get_max_id_rows mode r.1, r.2)

/-- Model of `app.get_next_id`: `max_id + 1` under the mode prefix. -/
def get_next_id (led : Ledger) (mode : Mode) : String × Ledger :=
  let r := get_max_id led mode
  (modePrefix mode ++ toString (r.1 + 1), r.2)

/-- Model of `SheetsAPI.append_row` on the named tab (the workflow only ever passes
`'Images'` or `'Videos'`). -/
def append_row (led : Ledger) (sheetName : String) (row : List String) : Ledger :=
  if sheetName = "Images" then { led with images := led.images ++ [row] }
  else if sheetName = "Videos" then { led with videos := led.videos ++ [row] }
  else led

/-- A well-formed ID of a mode, in the sense of the spec's data model: the
mode's prefix followed directly by a nonempty run of decimal digits; returns
the numeric suffix. (Spec-side characterisation, used only in claim statements.) -/
def wellFormedSuffix? (mode : Mode) (cell : String) : Option Nat :=
  let p := (modePrefix mode).data
  let cs := cell.data
  if p.isPrefixOf cs then
    let t := cs.drop p.length
    if isDigits t then some (digitsVal t) else none
  else none

/-! ### `media_validator.MediaValidator` -/

/-- Result triple of the duration validators: `(is_valid, error_message, duration)`. -/
structure DurResult where
  valid : Bool
  errorMsg : Option String
  duration : Option ℚ
deriving DecidableEq, Repr

/-- Rendering of Python's `f"{duration:.2f}"` for a rational duration
(half-up rounding to hundredths; the exact float rounding rule is immaterial
to every claim, which only inspect fixed substrings of the message). -/
def fmt2 (q : ℚ) : String :=
  let h : Int := Int.floor (q * 100 + 1 / 2)
  let ip : Int := h / 100
  let fp : Nat := (h % 100).natAbs
  toString ip ++ "." ++ (if fp < 10 then "0" else "") ++ toString fp

/-- Rendering of Python's `f"{min_seconds}s"`-style interpolation of a bound
(`str(3.0) = "3.0"`); only called on the integral literals 3, 10, 5, 15. -/
def fmtBound (q : ℚ) : String :=
  if q.den = 1 then toString q.num ++ ".0" else toString q.num ++ "/" ++ toString q.den

/-- The install-ffmpeg error text of `validate_video_duration`. -/
def ffprobeMissingMsg : String :=
  "ffprobe (part of ffmpeg) is not installed or not in PATH. Please install ffmpeg."

/-- Model of `MediaValidator.validate_video_duration`. `ffprobeOk` is the outcome of the
`ffprobe -version` availability probe; `dur?` is the single result of
`_get_media_duration_ffprobe` (`none` for any decode error, timeout, missing
decoder output or unparsable output — that helper already swallows them all). -/
def validate_video_duration (ffprobeOk : Bool) (dur? : Option ℚ)
    (minSeconds maxSeconds : ℚ) : DurResult :=
  if !ffprobeOk then
    { valid := false, errorMsg := some ffprobeMissingMsg, duration := none }
  else
    match dur? with
    | none =>
      { valid := false
        errorMsg := some "Could not read video duration. The file may be corrupted."
        duration := none }
    | some duration =>
      if duration < minSeconds then
        { valid := false
          errorMsg := some ("Video duration (" ++ fmt2 duration ++ "s) is less than minimum ("
            ++ fmtBound minSeconds ++ "s)")
          duration := some duration }
      else if duration > maxSeconds then
        { valid := false
          errorMsg := some ("Video duration (" ++ fmt2 duration ++ "s) exceeds maximum ("
            ++ fmtBound maxSeconds ++ "s)")
          duration := some duration }
      else
        { valid := true, errorMsg := none, duration := some duration }

/-- Model of `MediaValidator.validate_audio_duration`. `mutagenDur?` is the duration read
by the mutagen path (`none` when mutagen is missing, raises, or `File` returns
`None` — all of which fall through to the ffprobe fallback); `ffprobeDur?` is
the single result of the `_get_media_duration_ffprobe` fallback. -/
def validate_audio_duration (mutagenDur? : Option ℚ) (ffprobeDur? : Option ℚ)
    (minSeconds maxSeconds : ℚ) : DurResult :=
  match mutagenDur? with
  | some duration =>
    if duration < minSeconds then
      { valid := false
        errorMsg := some ("Audio duration (" ++ fmt2 duration ++ "s) is less than minimum ("
          ++ fmtBound minSeconds ++ "s)")
        duration := some duration }
    else if duration > maxSeconds then
      { valid := false
        errorMsg := some ("Audio duration (" ++ fmt2 duration ++ "s) exceeds maximum ("
          ++ fmtBound maxSeconds ++ "s)")
        duration := some duration }
    else
      { valid := true, errorMsg := none, duration := some duration }
  | none =>
    match ffprobeDur? with
    | none =>
      { valid := false
        errorMsg := some ("Could not read audio duration. Please install mutagen "
          ++ "(pip install mutagen) or ensure ffmpeg is installed on your system.")
        duration := none }
    | some duration =>
      if duration < minSeconds then
        { valid := false
          errorMsg := some ("Audio duration (" ++ fmt2 duration ++ "s) is less than minimum ("
            ++ fmtBound minSeconds ++ "s)")
          duration := some duration }
      else if duration > maxSeconds then
        { valid := false
          errorMsg := some ("Audio duration (" ++ fmt2 duration ++ "s) exceeds maximum ("
            ++ fmtBound maxSeconds ++ "s)")
          duration := some duration }
      else
        { valid := true, errorMsg := none, duration := some duration }

/-- Python `s.rfind(c)`: index of the last occurrence of `c`, `-1` if absent. -/
def pyRFind (l : List Char) (c : Char) : Int :=
  match (l.reverse.indexOf? c : Option Nat) with
  | none => -1
  | some j => (l.length : Int) - 1 - (j : Int)

/-- Model of `posixpath.splitext(p)[1]`: the extension from the last `'.'` of the final
path component, empty when the component's leading dots are the only dots
(`splitext('.gif') = ('.gif', '')`). The code only ever splits POSIX-style
temp-file paths and uploaded-file basenames. -/
def pyExt (p : String) : String :=
  let chars := p.data
  let sepIndex := pyRFind chars '/'
  let dotIndex := pyRFind chars '.'
  if sepIndex < dotIndex then
    let between := (chars.drop (sepIndex + 1).toNat).take (dotIndex - sepIndex - 1).toNat
    if between.any (fun ch => ch ≠ '.') then String.mk (chars.drop dotIndex.toNat)
    else ""
  else ""

/-- The result of `pyExt` followed by Python's `.lower()` (ASCII). -/
def lowerExt (p : String) : String :=
  String.mk ((pyExt p).data.map Char.toLower)

/-- Result pair of the extension validators: `(is_valid, error_message)`. -/
structure ExtResult where
  valid : Bool
  errorMsg : Option String
deriving DecidableEq, Repr

/-- Model of `MediaValidator.validate_media_file`: existence check, then the extension
allow-list per file type (`'image'`: .jpg/.jpeg/.png; `'video'`: .mp4). -/
def validate_media_file (fileExists : Bool) (filePath : String) (fileType : String) : ExtResult :=
  if !fileExists then { valid := false, errorMsg := some "File does not exist" }
  else
    let ext := lowerExt filePath
    if fileType = "image" then
      if ext ∈ [".jpg", ".jpeg", ".png"] then { valid := true, errorMsg := none }
      else
        { valid := false
          errorMsg := some ("Invalid image format. Allowed: "
            ++ String.intercalate ", " [".jpg", ".jpeg", ".png"]) }
    else if fileType = "video" then
      if ext = ".mp4" then { valid := true, errorMsg := none }
      else { valid := false, errorMsg := some "Invalid video format. Only .mp4 is allowed" }
    else
      { valid := false, errorMsg := some ("Unknown file type: " ++ fileType) }

/-- Model of `MediaValidator.validate_audio_file`: existence check, then `.mp3` only. -/
def validate_audio_file (fileExists : Bool) (filePath : String) : ExtResult :=
  if !fileExists then { valid := false, errorMsg := some "File does not exist" }
  else
    let ext := lowerExt filePath
    if ext = ".mp3" then { valid := true, errorMsg := none }
    else { valid := false, errorMsg := some "Invalid audio format. Only .mp3 is allowed" }

/-! ### `app.safe_delete_file` -/

/-- Outcome of one `os.unlink` attempt inside `safe_delete_file`. -/
inductive DelOutcome
  | ok
  | permErr
  | otherErr
deriving DecidableEq, Repr

/-- The retry loop of `safe_delete_file`: attempts `attempt, attempt+1, …`
up to `maxRetries - 1`; `PermissionError` retries (except on the last attempt),
any other exception gives up immediately; nothing propagates.
Returns `(deleted, number of unlink attempts made)`. -/
def deleteLoop (outcome : Nat → DelOutcome) (maxRetries attempt : Nat) : Bool × Nat :=
  if _h : attempt < maxRetries then
    match outcome attempt with
    | DelOutcome.ok => (true, attempt + 1)
    | DelOutcome.permErr =>
      if attempt < maxRetries - 1 then deleteLoop outcome maxRetries (attempt + 1)
      else (false, attempt + 1)
    | DelOutcome.otherErr => (false, attempt + 1)
  else (false, attempt)
termination_by maxRetries - attempt
decreasing_by omega

/-- Model of `app.safe_delete_file`: immediately true when the path is empty/absent,
otherwise the bounded retry loop (default `max_retries = 3`). -/
def safe_delete_file (fileExists : Bool) (outcome : Nat → DelOutcome) (maxRetries : Nat) :
    Bool × Nat :=
  if !fileExists then (true, 0) else deleteLoop outcome maxRetries 0

/-! ### The submission workflow of `app.main` (processing block, lines 330–464) -/

/-- Environment of one submission: the contributor's inputs plus oracles for
every external effect the handler performs (temp-file saves, the duration
decoders, the two Drive uploads, the Sheets append, and OS file deletion). -/
structure SubmissionEnv where
  mode : Mode
  mediaFileName : String
  msaCaption : String
  sudaneseCaption : String
  category : String
  mediaSaveOk : Bool
  audioSaveOk : Bool
  ffprobeOk : Bool
  videoDur? : Option ℚ
  audioMutagenDur? : Option ℚ
  audioFfprobeDur? : Option ℚ
  mediaUploadOk : Bool
  audioUploadOk : Bool
  appendOk : Bool
  mediaDelOk : Bool
  audioDelOk : Bool
  ledger : Ledger
deriving DecidableEq, Repr

/-- Visible effects of one run of the submission handler. -/
structure SubmissionResult where
  errorShown : Option String
  succeeded : Bool
  allocRead : Bool
  uploadedFiles : List (String × String)
  ledger : Ledger
  mediaTempCreated : Bool
  audioTempCreated : Bool
  mediaTempExists : Bool
  audioTempExists : Bool
deriving DecidableEq, Repr

/-- The string `mode.lower()` as passed to `validate_media_file`. -/
def modeLower (mode : Mode) : String :=
  if mode = Mode.image then "image" else "video"

/-- Target folder for the media file (`Images` / `Videos`). -/
def mediaFolderName (mode : Mode) : String :=
  if mode = Mode.image then "Images" else "Videos"

/-- Target folder for the audio caption. -/
def audioFolderName (mode : Mode) : String :=
  if mode = Mode.image then "Image_Audio_Transcriptions" else "Video_Audio_Transcriptions"

/-- The tab name: `'Images' if mode == 'Image' else 'Videos'`. -/
def sheetNameOf (mode : Mode) : String :=
  if mode = Mode.image then "Images" else "Videos"

/-- The media temp path: `tempfile.NamedTemporaryFile(suffix=Path(name).suffix)`;
the temp stem contains no dot, so the path's extension is the uploaded name's. -/
def mediaTempPath (env : SubmissionEnv) : String :=
  "/tmp/tmpmedia" ++ pyExt env.mediaFileName

/-- The audio temp path is always created with suffix `'.mp3'`. -/
def audioTempPath : String := "/tmp/tmpaudio.mp3"

/-- The media-format check the handler performs (the temp file exists). -/
def mediaFormatCheck (env : SubmissionEnv) : ExtResult :=
  validate_media_file true (mediaTempPath env) (modeLower env.mode)

/-- The audio-format check the handler performs. -/
def audioFormatCheck : ExtResult :=
  validate_audio_file true audioTempPath

/-- The video-duration check (bounds 3–10 s, as passed by the handler). -/
def videoDurationCheck (env : SubmissionEnv) : DurResult :=
  validate_video_duration env.ffprobeOk env.videoDur? 3 10

/-- The audio-duration check (bounds 5–15 s, as passed by the handler). -/
def audioDurationCheck (env : SubmissionEnv) : DurResult :=
  validate_audio_duration env.audioMutagenDur? env.audioFfprobeDur? 5 15

/-- New name of the uploaded media file: `f"{next_id}{media_ext}"`. -/
def mediaNewName (env : SubmissionEnv) : String :=
  (get_next_id env.ledger env.mode).1 ++ pyExt env.mediaFileName

/-- New name of the uploaded audio file: `f"{next_id}.mp3"`. -/
def audioNewName (env : SubmissionEnv) : String :=
  (get_next_id env.ledger env.mode).1 ++ ".mp3"

/-- An exit that runs the `safe_delete_file` cleanup on both temp files
(every validation-failure return and the exception handler do exactly this). -/
def cleanupExit (env : SubmissionEnv) (err : Option String) (alloc : Bool)
    (ups : List (String × String)) : SubmissionResult :=
  { errorShown := err
    succeeded := false
    allocRead := alloc
    uploadedFiles := ups
    ledger := env.ledger
    mediaTempCreated := true
    audioTempCreated := true
    mediaTempExists := !env.mediaDelOk
    audioTempExists := !env.audioDelOk }

/-- The submission handler of `app.main` after the required-field checks:
save temps → validate media format → validate audio format → validate video
duration (Video mode) → validate audio duration → allocate ID → upload media →
upload audio → append row → delete temps.  Each failing step returns early;
upload/append failures raise into the `except` handler, which reports the
error and deletes the temp files only. -/
def run_submission (env : SubmissionEnv) : SubmissionResult :=
  if !(env.mediaSaveOk && env.audioSaveOk) then
    { errorShown := some "Failed to save uploaded files"
      succeeded := false
      allocRead := false
      uploadedFiles := []
      ledger := env.ledger
      mediaTempCreated := env.mediaSaveOk
      audioTempCreated := env.audioSaveOk
      mediaTempExists := env.mediaSaveOk
      audioTempExists := env.audioSaveOk }
  else if !(mediaFormatCheck env).valid then
    cleanupExit env
      (some ("Media validation error: " ++ (mediaFormatCheck env).errorMsg.getD "")) false []
  else if !audioFormatCheck.valid then
    cleanupExit env
      (some ("Audio validation error: " ++ audioFormatCheck.errorMsg.getD "")) false []
  else if env.mode = Mode.video && !(videoDurationCheck env).valid then
    cleanupExit env
      (some ("Video validation error: " ++ (videoDurationCheck env).errorMsg.getD "")) false []
  else if !(audioDurationCheck env).valid then
    cleanupExit env
      (some ("Audio validation error: " ++ (audioDurationCheck env).errorMsg.getD "")) false []
  else if !env.mediaUploadOk then
    cleanupExit env (some "Error processing submission: media upload failed") true []
  else if !env.audioUploadOk then
    cleanupExit env (some "Error processing submission: audio upload failed") true
      [(mediaNewName env, mediaFolderName env.mode)]
  else if !env.appendOk then
    cleanupExit env (some "Error processing submission: append row failed") true
      [(mediaNewName env, mediaFolderName env.mode), (audioNewName env, audioFolderName env.mode)]
  else
    { errorShown := none
      succeeded := true
      allocRead := true
      uploadedFiles :=
        [(mediaNewName env, mediaFolderName env.mode), (audioNewName env, audioFolderName env.mode)]
      ledger :=
        append_row env.ledger (sheetNameOf env.mode)
          [(get_next_id env.ledger env.mode).1,
           mediaFolderName env.mode ++ "/" ++ mediaNewName env,
           pyStripS env.msaCaption,
           pyStripS env.sudaneseCaption,
           audioFolderName env.mode ++ "/" ++ audioNewName env,
           env.category]
      mediaTempCreated := true
      audioTempCreated := true
      mediaTempExists := !env.mediaDelOk
      audioTempExists := !env.audioDelOk }

/-! ### Definitions used by the claim statements and witnesses -/

/-- The pattern `pat` occurs as a contiguous substring of `s`. -/
def containsSub (s pat : String) : Prop :=
  ∃ p q, s = p ++ (pat ++ q)

/-- A submission of a `.gif` named file in Image mode (every other oracle is
cooperative, so only the extension check can fail). -/
def gifEnv : SubmissionEnv :=
  { mode := Mode.image
    mediaFileName := "photo.gif"
    msaCaption := "msa"
    sudaneseCaption := "sdn"
    category := "Food"
    mediaSaveOk := true
    audioSaveOk := true
    ffprobeOk := true
    videoDur? := none
    audioMutagenDur? := some 7
    audioFfprobeDur? := none
    mediaUploadOk := true
    audioUploadOk := true
    appendOk := true
    mediaDelOk := true
    audioDelOk := true
    ledger := { images := [["id"]], videos := [["id"]] } }

/-- A 2-second video submission: every oracle cooperative except the duration. -/
def shortClipEnv : SubmissionEnv :=
  { mode := Mode.video
    mediaFileName := "clip.mp4"
    msaCaption := "msa"
    sudaneseCaption := "sdn"
    category := "Food"
    mediaSaveOk := true
    audioSaveOk := true
    ffprobeOk := true
    videoDur? := some 2
    audioMutagenDur? := some 7
    audioFfprobeDur? := none
    mediaUploadOk := true
    audioUploadOk := true
    appendOk := true
    mediaDelOk := true
    audioDelOk := true
    ledger := { images := [["id"]], videos := [["id"]] } }

/-- A submission whose row append fails after both uploads succeeded. -/
def appendFailEnv : SubmissionEnv :=
  { mode := Mode.image
    mediaFileName := "pic.jpg"
    msaCaption := "msa"
    sudaneseCaption := "sdn"
    category := "Food"
    mediaSaveOk := true
    audioSaveOk := true
    ffprobeOk := true
    videoDur? := none
    audioMutagenDur? := some 7
    audioFfprobeDur? := none
    mediaUploadOk := true
    audioUploadOk := true
    appendOk := false
    mediaDelOk := true
    audioDelOk := true
    ledger := { images := [["id"], ["img_3"]], videos := [["id"]] } }

/-- A submission where the media temp save succeeds but the audio save fails:
the handler returns early without deleting the media temp file. -/
def saveFailEnv : SubmissionEnv :=
  { mode := Mode.image
    mediaFileName := "pic2.jpg"
    msaCaption := "msa"
    sudaneseCaption := "sdn"
    category := "Food"
    mediaSaveOk := true
    audioSaveOk := false
    ffprobeOk := true
    videoDur? := none
    audioMutagenDur? := some 7
    audioFfprobeDur? := none
    mediaUploadOk := true
    audioUploadOk := true
    appendOk := true
    mediaDelOk := true
    audioDelOk := true
    ledger := { images := [["id"]], videos := [["id"]] } }

/-- A fully cooperative environment for the C8 witness. -/
def cleanupEnv : SubmissionEnv :=
  { mode := Mode.image
    mediaFileName := "a.jpg"
    msaCaption := "msa"
    sudaneseCaption := "sdn"
    category := "Food"
    mediaSaveOk := true
    audioSaveOk := true
    ffprobeOk := true
    videoDur? := none
    audioMutagenDur? := some 7
    audioFfprobeDur? := none
    mediaUploadOk := true
    audioUploadOk := true
    appendOk := true
    mediaDelOk := true
    audioDelOk := true
    ledger := { images := [["id"]], videos := [["id"]] } }

/-! ### Lemmas about the Python string primitives -/

theorem dropWhile_eq_self_of {p : Char → Bool} {l : List Char}
    (h : ∀ c ∈ l, p c = false) : l.dropWhile p = l := by
  cases l with
  | nil => rfl
  | cons x xs =>
    have hx : p x = false := h x (List.mem_cons_self x xs)
    simp [List.dropWhile_cons, hx]

theorem stripChars_eq_self {l : List Char}
    (h : ∀ c ∈ l, isPySpace c = false) : stripChars l = l := by
  unfold stripChars
  rw [dropWhile_eq_self_of h, dropWhile_eq_self_of, List.reverse_reverse]
  intro c hc
  exact h c (List.mem_reverse.mp hc)

theorem isPySpace_eq_false_of_digit {c : Char} (h : isDigitChar c = true) :
    isPySpace c = false := by
  have hm : c ∈ ['0', '1', '2', '3', '4', '5', '6', '7', '8', '9'] := by
    simpa [isDigitChar] using h
  fin_cases hm <;> decide

theorem ne_underscore_of_digit {c : Char} (h : isDigitChar c = true) : c ≠ '_' := by
  have hm : c ∈ ['0', '1', '2', '3', '4', '5', '6', '7', '8', '9'] := by
    simpa [isDigitChar] using h
  fin_cases hm <;> decide

theorem all_digits_of_isDigits {l : List Char} (h : isDigits l = true) :
    ∀ c ∈ l, isDigitChar c = true := by
  have := (Bool.and_eq_true _ _).mp h
  simpa [List.all_eq_true] using this.2

theorem pySplitChar_no_sep {c : Char} {b : List Char} (h : ∀ x ∈ b, x ≠ c) :
    pySplitChar c b = [b] := by
  induction b with
  | nil => rfl
  | cons x xs ih =>
    have hx : x ≠ c := h x (List.mem_cons_self x xs)
    have ihh := ih fun y hy => h y (List.mem_cons_of_mem x hy)
    simp [pySplitChar, hx, ihh]

theorem pySplitChar_at_sep {c : Char} {a b : List Char}
    (ha : ∀ x ∈ a, x ≠ c) (hb : ∀ x ∈ b, x ≠ c) :
    pySplitChar c (a ++ c :: b) = [a, b] := by
  induction a with
  | nil => simp [pySplitChar, pySplitChar_no_sep hb]
  | cons x xs ih =>
    have hx : x ≠ c := ha x (List.mem_cons_self x xs)
    have ihh := ih fun y hy => ha y (List.mem_cons_of_mem x hy)
    show pySplitChar c ((x :: xs) ++ c :: b) = [x :: xs, b]
    rw [List.cons_append]
    simp only [pySplitChar]
    rw [ihh]
    simp [hx]

theorem pyInt?_digits {t : List Char} (h : isDigits t = true) :
    pyInt? t = some (digitsVal t : Int) := by
  have hall := all_digits_of_isDigits h
  have hstrip : stripChars t = t :=
    stripChars_eq_self fun c hc => isPySpace_eq_false_of_digit (hall c hc)
  simp [pyInt?, hstrip, h]

/-- The scan of `get_max_id` parses every well-formed ID correctly: a cell
that is exactly the mode's prefix followed by a nonempty digit run is accepted
with its numeric value. -/
theorem parseIdNum_of_wellFormed {mode : Mode} {cell : String} {n : Nat}
    (h : wellFormedSuffix? mode cell = some n) :
    parseIdNum (modePrefix mode) cell = some (n : Int) := by
  obtain ⟨cl⟩ := cell
  unfold wellFormedSuffix? at h
  by_cases hp : (modePrefix mode).data.isPrefixOf (String.mk cl).data
  · rw [if_pos hp] at h
    by_cases hd : isDigits ((String.mk cl).data.drop (modePrefix mode).data.length)
    · rw [if_pos hd] at h
      have hval : digitsVal ((String.mk cl).data.drop (modePrefix mode).data.length) = n :=
        Option.some.inj h
      have hpre : (modePrefix mode).data <+: (String.mk cl).data :=
        List.isPrefixOf_iff_prefix.mp hp
      obtain ⟨t, ht⟩ := hpre
      have htt : (String.mk cl).data.drop (modePrefix mode).data.length = t := by
        rw [← ht, List.drop_left]
      rw [htt] at hd hval
      have hall := all_digits_of_isDigits hd
      -- decompose the prefix as its head part and the trailing underscore
      have hdecomp : ∃ p0 : List Char,
          (modePrefix mode).data = p0 ++ ['_'] ∧ ∀ x ∈ p0, x ≠ '_' ∧ isPySpace x = false := by
        cases mode with
        | image => exact ⟨['i', 'm', 'g'], by decide, by decide⟩
        | video => exact ⟨['v', 'i', 'd'], by decide, by decide⟩
      obtain ⟨p0, hp0, hp0chars⟩ := hdecomp
      have hcl : cl = p0 ++ '_' :: t := by
        have : (String.mk cl).data = cl := rfl
        rw [this] at ht
        rw [← ht, hp0, List.append_assoc]
        rfl
      -- now evaluate parseIdNum
      unfold parseIdNum
      have hstrip : stripChars (String.mk cl).data = (String.mk cl).data := by
        apply stripChars_eq_self
        intro c hc
        rw [show (String.mk cl).data = cl from rfl, hcl] at hc
        rcases List.mem_append.mp hc with hmem | hmem
        · exact (hp0chars c hmem).2
        · rcases List.mem_cons.mp hmem with rfl | hmem
          · decide
          · exact isPySpace_eq_false_of_digit (hall c hmem)
      rw [hstrip, if_pos hp]
      have hsplit : pySplitChar '_' (String.mk cl).data = [p0, t] := by
        rw [show (String.mk cl).data = cl from rfl, hcl]
        exact pySplitChar_at_sep (fun x hx => (hp0chars x hx).1)
          (fun x hx => ne_underscore_of_digit (hall x hx))
      rw [hsplit]
      simp [pyInt?_digits hd, hval]
    · rw [if_neg hd] at h
      exact absurd h (by simp)
  · rw [if_neg hp] at h
    exact absurd h (by simp)

/-! ### Lemmas about the `get_max_id` scan -/

theorem maxStep_le (pfx : String) (acc : Int) (row : List String) :
    acc ≤ maxStep pfx acc row := by
  cases h : row.head?.bind (parseIdNum pfx) with
  | none => simp [maxStep, h]
  | some num => simp [maxStep, h]

theorem le_maxFold (pfx : String) (rows : List (List String)) (acc : Int) :
    acc ≤ maxFold pfx rows acc := by
  induction rows generalizing acc with
  | nil => exact le_refl acc
  | cons r rs ih =>
    calc acc ≤ maxStep pfx acc r := maxStep_le pfx acc r
      _ ≤ maxFold pfx rs (maxStep pfx acc r) := ih _
      _ = maxFold pfx (r :: rs) acc := rfl

theorem num_le_maxFold {pfx : String} {rows : List (List String)} {row : List String}
    {cell : String} {num : Int} (acc : Int)
    (hr : row ∈ rows) (hc : row.head? = some cell)
    (hn : parseIdNum pfx cell = some num) :
    num ≤ maxFold pfx rows acc := by
  induction rows generalizing acc with
  | nil => cases hr
  | cons r rs ih =>
    rcases List.mem_cons.mp hr with rfl | hmem
    · have hstep : maxStep pfx acc row = max acc num := by
        simp [maxStep, hc, hn]
      calc num ≤ max acc num := le_max_right acc num
        _ = maxStep pfx acc row := hstep.symm
        _ ≤ maxFold pfx rs (maxStep pfx acc row) := le_maxFold pfx rs _
        _ = maxFold pfx (row :: rs) acc := rfl
    · exact ih _ hmem

theorem maxStep_eq_of_unparsed {pfx : String} {row : List String} (acc : Int)
    (h : row.head?.bind (parseIdNum pfx) = none) : maxStep pfx acc row = acc := by
  simp [maxStep, h]

theorem maxFold_erase {pfx : String} {bad : List String}
    (l1 l2 : List (List String)) (acc : Int)
    (h : bad.head?.bind (parseIdNum pfx) = none) :
    maxFold pfx (l1 ++ bad :: l2) acc = maxFold pfx (l1 ++ l2) acc := by
  unfold maxFold
  rw [List.foldl_append, List.foldl_append, List.foldl_cons,
    maxStep_eq_of_unparsed _ h]

theorem maxFold_eq_of_all_unparsed {pfx : String} {rows : List (List String)} (acc : Int)
    (h : ∀ row ∈ rows, row.head?.bind (parseIdNum pfx) = none) :
    maxFold pfx rows acc = acc := by
  induction rows generalizing acc with
  | nil => rfl
  | cons r rs ih =>
    have h1 : maxStep pfx acc r = acc :=
      maxStep_eq_of_unparsed acc (h r (List.mem_cons_self r rs))
    calc maxFold pfx (r :: rs) acc = maxFold pfx rs (maxStep pfx acc r) := rfl
      _ = maxStep pfx acc r := ih _ fun row hrow => h row (List.mem_cons_of_mem r hrow)
      _ = acc := h1

theorem maxFold_attained (pfx : String) (rows : List (List String)) (acc : Int) :
    maxFold pfx rows acc = acc ∨
    ∃ row ∈ rows, ∃ cell num, row.head? = some cell ∧
      parseIdNum pfx cell = some num ∧ maxFold pfx rows acc = num := by
  induction rows generalizing acc with
  | nil => exact Or.inl rfl
  | cons r rs ih =>
    have hfold : maxFold pfx (r :: rs) acc = maxFold pfx rs (maxStep pfx acc r) := rfl
    rcases ih (maxStep pfx acc r) with h | ⟨row, hrow, cell, num, hc, hn, heq⟩
    · cases hna : r.head?.bind (parseIdNum pfx) with
      | none =>
        left
        rw [hfold, h]
        exact maxStep_eq_of_unparsed acc hna
      | some num =>
        have hstep : maxStep pfx acc r = max acc num := by
          simp [maxStep, hna]
        obtain ⟨cell, hc, hn⟩ :
            ∃ cell, r.head? = some cell ∧ parseIdNum pfx cell = some num := by
          cases hh : r.head? with
          | none => rw [hh] at hna; simp at hna
          | some c =>
            rw [hh] at hna
            simp only [Option.some_bind] at hna
            exact ⟨c, rfl, hna⟩
        rcases max_choice acc num with hm | hm
        · left
          rw [hfold, h, hstep, hm]
        · right
          exact ⟨r, List.mem_cons_self r rs, cell, num, hc, hn, by
            rw [hfold, h, hstep, hm]⟩
    · right
      exact ⟨row, List.mem_cons_of_mem r hrow, cell, num, hc, hn, by rw [hfold]; exact heq⟩

theorem drop_one_nil_of_length_le_one {rows : List (List String)}
    (h : rows.length ≤ 1) : rows.drop 1 = [] := by
  match rows with
  | [] => rfl
  | [x] => rfl
  | x :: y :: t => simp at h

/-! ### Substring containment (for the error-message claims) -/

theorem containsSub_append_left (a : String) {s pat : String}
    (h : containsSub s pat) : containsSub (a ++ s) pat := by
  obtain ⟨p, q, hs⟩ := h
  exact ⟨a ++ p, q, by rw [hs, String.append_assoc]⟩

theorem containsSub_append_right (c : String) {s pat : String}
    (h : containsSub s pat) : containsSub (s ++ c) pat := by
  obtain ⟨p, q, hs⟩ := h
  exact ⟨p, q ++ c, by rw [hs, String.append_assoc, String.append_assoc]⟩

/-- Containment in the five-piece messages built by the duration validators. -/
theorem containsSub_build (pre f fm post : String) {mid pat : String}
    (h : containsSub mid pat) :
    containsSub (pre ++ f ++ mid ++ fm ++ post) pat :=
  containsSub_append_right post
    (containsSub_append_right fm (containsSub_append_left (pre ++ f) h))

theorem containsSub_ltMin : containsSub "s) is less than minimum (" "less than minimum" :=
  ⟨"s) is ", " (", by decide⟩

theorem containsSub_exMax : containsSub "s) exceeds maximum (" "exceeds maximum" :=
  ⟨"s) ", " (", by decide⟩

/-! ### Claim theorems about the media validator -/

/-- C4: for every file whose duration the decoder returns,
`validate_video_duration` rejects a duration below 3 s with an error message
containing "less than minimum" and a duration above 10 s with one containing
"exceeds maximum", each returning the measured duration; and
`validate_audio_duration` does the same with bounds 5 and 15 s, on both its
mutagen path and its ffprobe-fallback path. -/
theorem c4_duration_bound_errors :
    (∀ d : ℚ, d < 3 →
      (validate_video_duration true (some d) 3 10).valid = false ∧
      (validate_video_duration true (some d) 3 10).duration = some d ∧
      ∃ m, (validate_video_duration true (some d) 3 10).errorMsg = some m ∧
        containsSub m "less than minimum") ∧
    (∀ d : ℚ, 10 < d →
      (validate_video_duration true (some d) 3 10).valid = false ∧
      (validate_video_duration true (some d) 3 10).duration = some d ∧
      ∃ m, (validate_video_duration true (some d) 3 10).errorMsg = some m ∧
        containsSub m "exceeds maximum") ∧
    (∀ (d : ℚ) (f? : Option ℚ), d < 5 →
      (validate_audio_duration (some d) f? 5 15).valid = false ∧
      (validate_audio_duration (some d) f? 5 15).duration = some d ∧
      ∃ m, (validate_audio_duration (some d) f? 5 15).errorMsg = some m ∧
        containsSub m "less than minimum") ∧
    (∀ (d : ℚ) (f? : Option ℚ), 15 < d →
      (validate_audio_duration (some d) f? 5 15).valid = false ∧
      (validate_audio_duration (some d) f? 5 15).duration = some d ∧
      ∃ m, (validate_audio_duration (some d) f? 5 15).errorMsg = some m ∧
        containsSub m "exceeds maximum") ∧
    (∀ d : ℚ, d < 5 →
      (validate_audio_duration none (some d) 5 15).valid = false ∧
      (validate_audio_duration none (some d) 5 15).duration = some d ∧
      ∃ m, (validate_audio_duration none (some d) 5 15).errorMsg = some m ∧
        containsSub m "less than minimum") ∧
    (∀ d : ℚ, 15 < d →
      (validate_audio_duration none (some d) 5 15).valid = false ∧
      (validate_audio_duration none (some d) 5 15).duration = some d ∧
      ∃ m, (validate_audio_duration none (some d) 5 15).errorMsg = some m ∧
        containsSub m "exceeds maximum") := by
  refine ⟨?_, ?_, ?_, ?_, ?_, ?_⟩
  · intro d hd
    have e : validate_video_duration true (some d) 3 10 =
        { valid := false
          errorMsg := some ("Video duration (" ++ fmt2 d ++ "s) is less than minimum ("
            ++ fmtBound 3 ++ "s)")
          duration := some d } := by
      simp [validate_video_duration, hd]
    rw [e]
    exact ⟨rfl, rfl, _, rfl,
      containsSub_build "Video duration (" (fmt2 d) (fmtBound 3) "s)" containsSub_ltMin⟩
  · intro d hd
    have h1 : ¬ d < 3 := by linarith
    have e : validate_video_duration true (some d) 3 10 =
        { valid := false
          errorMsg := some ("Video duration (" ++ fmt2 d ++ "s) exceeds maximum ("
            ++ fmtBound 10 ++ "s)")
          duration := some d } := by
      simp [validate_video_duration, h1, hd]
    rw [e]
    exact ⟨rfl, rfl, _, rfl,
      containsSub_build "Video duration (" (fmt2 d) (fmtBound 10) "s)" containsSub_exMax⟩
  · intro d f? hd
    have e : validate_audio_duration (some d) f? 5 15 =
        { valid := false
          errorMsg := some ("Audio duration (" ++ fmt2 d ++ "s) is less than minimum ("
            ++ fmtBound 5 ++ "s)")
          duration := some d } := by
      simp [validate_audio_duration, hd]
    rw [e]
    exact ⟨rfl, rfl, _, rfl,
      containsSub_build "Audio duration (" (fmt2 d) (fmtBound 5) "s)" containsSub_ltMin⟩
  · intro d f? hd
    have h1 : ¬ d < 5 := by linarith
    have e : validate_audio_duration (some d) f? 5 15 =
        { valid := false
          errorMsg := some ("Audio duration (" ++ fmt2 d ++ "s) exceeds maximum ("
            ++ fmtBound 15 ++ "s)")
          duration := some d } := by
      simp [validate_audio_duration, h1, hd]
    rw [e]
    exact ⟨rfl, rfl, _, rfl,
      containsSub_build "Audio duration (" (fmt2 d) (fmtBound 15) "s)" containsSub_exMax⟩
  · intro d hd
    have e : validate_audio_duration none (some d) 5 15 =
        { valid := false
          errorMsg := some ("Audio duration (" ++ fmt2 d ++ "s) is less than minimum ("
            ++ fmtBound 5 ++ "s)")
          duration := some d } := by
      simp [validate_audio_duration, hd]
    rw [e]
    exact ⟨rfl, rfl, _, rfl,
      containsSub_build "Audio duration (" (fmt2 d) (fmtBound 5) "s)" containsSub_ltMin⟩
  · intro d hd
    have h1 : ¬ d < 5 := by linarith
    have e : validate_audio_duration none (some d) 5 15 =
        { valid := false
          errorMsg := some ("Audio duration (" ++ fmt2 d ++ "s) exceeds maximum ("
            ++ fmtBound 15 ++ "s)")
          duration := some d } := by
      simp [validate_audio_duration, h1, hd]
    rw [e]
    exact ⟨rfl, rfl, _, rfl,
      containsSub_build "Audio duration (" (fmt2 d) (fmtBound 15) "s)" containsSub_exMax⟩

/-- Witness for C4: the spec's own examples — a 2-second video gets the
"less than minimum" rejection and a 12-second video the "exceeds maximum"
rejection, each with the measured duration returned; plus audio instances. -/
theorem c4_duration_bound_errors_witness :
    ((validate_video_duration true (some 2) 3 10).valid = false ∧
      (validate_video_duration true (some 2) 3 10).duration = some 2 ∧
      ∃ m, (validate_video_duration true (some 2) 3 10).errorMsg = some m ∧
        containsSub m "less than minimum") ∧
    ((validate_video_duration true (some 12) 3 10).valid = false ∧
      (validate_video_duration true (some 12) 3 10).duration = some 12 ∧
      ∃ m, (validate_video_duration true (some 12) 3 10).errorMsg = some m ∧
        containsSub m "exceeds maximum") ∧
    ((validate_audio_duration (some 4) none 5 15).valid = false ∧
      (validate_audio_duration (some 4) none 5 15).duration = some 4 ∧
      ∃ m, (validate_audio_duration (some 4) none 5 15).errorMsg = some m ∧
        containsSub m "less than minimum") ∧
    ((validate_audio_duration none (some 16) 5 15).valid = false ∧
      (validate_audio_duration none (some 16) 5 15).duration = some 16 ∧
      ∃ m, (validate_audio_duration none (some 16) 5 15).errorMsg = some m ∧
        containsSub m "exceeds maximum") := by
  obtain ⟨h1, h2, h3, _, _, h6⟩ := c4_duration_bound_errors
  exact ⟨h1 2 (by norm_num), h2 12 (by norm_num), h3 4 none (by norm_num),
    h6 16 (by norm_num)⟩

/-- C10: the duration bounds are inclusive at both ends — a decoded duration
equal to a bound is accepted, and rejection happens only strictly below the
minimum or strictly above the maximum, on every decoder path. -/
theorem c10_bounds_inclusive :
    (∀ d : ℚ, 3 ≤ d → d ≤ 10 →
      validate_video_duration true (some d) 3 10 =
        { valid := true, errorMsg := none, duration := some d }) ∧
    (∀ d : ℚ, (validate_video_duration true (some d) 3 10).valid = false →
      d < 3 ∨ 10 < d) ∧
    (∀ (d : ℚ) (f? : Option ℚ), 5 ≤ d → d ≤ 15 →
      validate_audio_duration (some d) f? 5 15 =
        { valid := true, errorMsg := none, duration := some d }) ∧
    (∀ (d : ℚ) (f? : Option ℚ),
      (validate_audio_duration (some d) f? 5 15).valid = false → d < 5 ∨ 15 < d) ∧
    (∀ d : ℚ, 5 ≤ d → d ≤ 15 →
      validate_audio_duration none (some d) 5 15 =
        { valid := true, errorMsg := none, duration := some d }) ∧
    (∀ d : ℚ, (validate_audio_duration none (some d) 5 15).valid = false →
      d < 5 ∨ 15 < d) := by
  refine ⟨?_, ?_, ?_, ?_, ?_, ?_⟩
  · intro d hlo hhi
    have h1 : ¬ d < 3 := not_lt.mpr hlo
    have h2 : ¬ d > 10 := not_lt.mpr hhi
    simp [validate_video_duration, h1, h2]
  · intro d h
    by_cases h1 : d < 3
    · exact Or.inl h1
    · by_cases h2 : 10 < d
      · exact Or.inr h2
      · have e : validate_video_duration true (some d) 3 10 =
            { valid := true, errorMsg := none, duration := some d } := by
          simp [validate_video_duration, h1, h2]
        rw [e] at h
        simp at h
  · intro d f? hlo hhi
    have h1 : ¬ d < 5 := not_lt.mpr hlo
    have h2 : ¬ d > 15 := not_lt.mpr hhi
    simp [validate_audio_duration, h1, h2]
  · intro d f? h
    by_cases h1 : d < 5
    · exact Or.inl h1
    · by_cases h2 : 15 < d
      · exact Or.inr h2
      · have e : validate_audio_duration (some d) f? 5 15 =
            { valid := true, errorMsg := none, duration := some d } := by
          simp [validate_audio_duration, h1, h2]
        rw [e] at h
        simp at h
  · intro d hlo hhi
    have h1 : ¬ d < 5 := not_lt.mpr hlo
    have h2 : ¬ d > 15 := not_lt.mpr hhi
    simp [validate_audio_duration, h1, h2]
  · intro d h
    by_cases h1 : d < 5
    · exact Or.inl h1
    · by_cases h2 : 15 < d
      · exact Or.inr h2
      · have e : validate_audio_duration none (some d) 5 15 =
            { valid := true, errorMsg := none, duration := some d } := by
          simp [validate_audio_duration, h1, h2]
        rw [e] at h
        simp at h

/-- Witness for C10: the exact boundary durations 3, 10, 5, 15 are accepted. -/
theorem c10_bounds_inclusive_witness :
    validate_video_duration true (some 3) 3 10 =
      { valid := true, errorMsg := none, duration := some 3 } ∧
    validate_video_duration true (some 10) 3 10 =
      { valid := true, errorMsg := none, duration := some 10 } ∧
    validate_audio_duration (some 5) none 5 15 =
      { valid := true, errorMsg := none, duration := some 5 } ∧
    validate_audio_duration none (some 15) 5 15 =
      { valid := true, errorMsg := none, duration := some 15 } := by
  obtain ⟨h1, _, h3, _, h5, _⟩ := c10_bounds_inclusive
  exact ⟨h1 3 (by norm_num) (by norm_num), h1 10 (by norm_num) (by norm_num),
    h3 5 none (by norm_num) (by norm_num), h5 15 (by norm_num) (by norm_num)⟩

/-- C9: a decoder failure (decode error, timeout, missing decoder, unreadable
output — all collapsed to `none` by `_get_media_duration_ffprobe`) makes both
duration validators return invalid with an error message and no duration; the
embedding is a total function of the decoder's single result, so nothing is
raised and the decode is consulted exactly once. -/
theorem c9_decode_failure_invalid :
    validate_video_duration true none 3 10 =
      { valid := false
        errorMsg := some "Could not read video duration. The file may be corrupted."
        duration := none } ∧
    (∀ d? : Option ℚ, validate_video_duration false d? 3 10 =
      { valid := false, errorMsg := some ffprobeMissingMsg, duration := none }) ∧
    validate_audio_duration none none 5 15 =
      { valid := false
        errorMsg := some ("Could not read audio duration. Please install mutagen "
          ++ "(pip install mutagen) or ensure ffmpeg is installed on your system.")
        duration := none } :=
  ⟨rfl, fun _ => rfl, rfl⟩

/-- Witness for C9: instantiation at a concrete decoder state. -/
theorem c9_decode_failure_invalid_witness :
    validate_video_duration false (some 7) 3 10 =
      { valid := false, errorMsg := some ffprobeMissingMsg, duration := none } :=
  c9_decode_failure_invalid.2.1 (some 7)

/-! ### Claim theorems about the extension allow-list and the workflow -/

/-- C5: for an existing file, `validate_media_file` accepts exactly the
extensions .jpg/.jpeg/.png in image mode and exactly .mp4 in video mode,
`validate_audio_file` accepts exactly .mp3; a rejection always carries an
error message; and a `photo.gif` submission in image mode is rejected by the
workflow before any network interaction (no upload, no ledger read or write). -/
theorem c5_extension_allowlist :
    (∀ p : String, (validate_media_file true p "image").valid = true ↔
      lowerExt p ∈ [".jpg", ".jpeg", ".png"]) ∧
    (∀ p : String, (validate_media_file true p "video").valid = true ↔
      lowerExt p = ".mp4") ∧
    (∀ p : String, (validate_audio_file true p).valid = true ↔ lowerExt p = ".mp3") ∧
    (∀ p ft : String, (validate_media_file true p ft).valid = false →
      ((validate_media_file true p ft).errorMsg).isSome = true) ∧
    (run_submission gifEnv).errorShown =
      some "Media validation error: Invalid image format. Allowed: .jpg, .jpeg, .png" ∧
    (run_submission gifEnv).allocRead = false ∧
    (run_submission gifEnv).uploadedFiles = [] ∧
    (run_submission gifEnv).ledger = gifEnv.ledger := by
  refine ⟨?_, ?_, ?_, ?_, by decide, by decide, by decide, by decide⟩
  · intro p
    by_cases h : lowerExt p ∈ [".jpg", ".jpeg", ".png"]
    · simp [validate_media_file, h]
    · simp [validate_media_file, h]
  · intro p
    by_cases h : lowerExt p = ".mp4"
    · simp [validate_media_file, h]
    · simp [validate_media_file, h]
  · intro p
    by_cases h : lowerExt p = ".mp3"
    · simp [validate_audio_file, h]
    · simp [validate_audio_file, h]
  · intro p ft h
    unfold validate_media_file at h ⊢
    by_cases h1 : ft = "image"
    · by_cases h2 : lowerExt p ∈ [".jpg", ".jpeg", ".png"] <;> simp_all
    · by_cases h3 : ft = "video"
      · by_cases h4 : lowerExt p = ".mp4" <;> simp_all
      · simp_all

/-- Witness for C5: a `.PNG` file is accepted in image mode (case-folded
extension) and a `.gif` file is rejected. -/
theorem c5_extension_allowlist_witness :
    (validate_media_file true "/tmp/x.PNG" "image").valid = true ∧
    (validate_media_file true "/tmp/photo.gif" "image").valid = false := by
  obtain ⟨h1, _, _, _, _⟩ := c5_extension_allowlist
  constructor
  · exact (h1 "/tmp/x.PNG").mpr (by decide)
  · cases hval : (validate_media_file true "/tmp/photo.gif" "image").valid
    · rfl
    · exact absurd ((h1 "/tmp/photo.gif").mp hval) (by decide)

/-- The audio temp file always carries the `.mp3` suffix the handler gave it,
so the audio extension check inside the workflow always passes. -/
theorem audioFormatCheck_valid : audioFormatCheck.valid = true := by decide

/-- Shape of every cleanup exit of the handler, when OS deletion succeeds. -/
theorem cleanupExit_props (env : SubmissionEnv) (msg : String) (al : Bool)
    (ups : List (String × String))
    (hdm : env.mediaDelOk = true) (hda : env.audioDelOk = true) :
    ((cleanupExit env (some msg) al ups).errorShown).isSome = true ∧
    (cleanupExit env (some msg) al ups).succeeded = false ∧
    (cleanupExit env (some msg) al ups).allocRead = al ∧
    (cleanupExit env (some msg) al ups).uploadedFiles = ups ∧
    (cleanupExit env (some msg) al ups).ledger = env.ledger ∧
    (cleanupExit env (some msg) al ups).mediaTempExists = false ∧
    (cleanupExit env (some msg) al ups).audioTempExists = false := by
  simp [cleanupExit, hdm, hda]

/-- C6: if extension or duration validation fails for either uploaded file,
the handler reports the error, deletes both temporary files, and performs
none of the remaining steps — no ID-allocation read, no upload, no row
append; ledger and storage are unchanged. -/
theorem c6_validation_failure_aborts (env : SubmissionEnv)
    (hms : env.mediaSaveOk = true) (has : env.audioSaveOk = true)
    (hdm : env.mediaDelOk = true) (hda : env.audioDelOk = true)
    (hfail : (mediaFormatCheck env).valid = false ∨ audioFormatCheck.valid = false ∨
      (env.mode = Mode.video ∧ (videoDurationCheck env).valid = false) ∨
      (audioDurationCheck env).valid = false) :
    ((run_submission env).errorShown).isSome = true ∧
    (run_submission env).succeeded = false ∧
    (run_submission env).allocRead = false ∧
    (run_submission env).uploadedFiles = [] ∧
    (run_submission env).ledger = env.ledger ∧
    (run_submission env).mediaTempExists = false ∧
    (run_submission env).audioTempExists = false := by
  cases h1 : (mediaFormatCheck env).valid with
  | false =>
    have hrun : run_submission env = cleanupExit env
        (some ("Media validation error: " ++ ((mediaFormatCheck env).errorMsg).getD ""))
        false [] := by
      unfold run_submission
      simp [hms, has, h1]
    rw [hrun]
    exact cleanupExit_props env _ false [] hdm hda
  | true =>
    cases hm : env.mode with
    | image =>
      cases h4 : (audioDurationCheck env).valid with
      | false =>
        have hrun : run_submission env = cleanupExit env
            (some ("Audio validation error: " ++ ((audioDurationCheck env).errorMsg).getD ""))
            false [] := by
          unfold run_submission
          simp [hms, has, h1, audioFormatCheck_valid, hm, h4]
        rw [hrun]
        exact cleanupExit_props env _ false [] hdm hda
      | true =>
        exfalso
        rcases hfail with hf | hf | ⟨hfm, _⟩ | hf
        · rw [h1] at hf
          simp at hf
        · rw [audioFormatCheck_valid] at hf
          simp at hf
        · rw [hm] at hfm
          simp at hfm
        · rw [h4] at hf
          simp at hf
    | video =>
      cases h3 : (videoDurationCheck env).valid with
      | false =>
        have hrun : run_submission env = cleanupExit env
            (some ("Video validation error: " ++ ((videoDurationCheck env).errorMsg).getD ""))
            false [] := by
          unfold run_submission
          simp [hms, has, h1, audioFormatCheck_valid, hm, h3]
        rw [hrun]
        exact cleanupExit_props env _ false [] hdm hda
      | true =>
        cases h4 : (audioDurationCheck env).valid with
        | false =>
          have hrun : run_submission env = cleanupExit env
              (some ("Audio validation error: " ++ ((audioDurationCheck env).errorMsg).getD ""))
              false [] := by
            unfold run_submission
            simp [hms, has, h1, audioFormatCheck_valid, hm, h3, h4]
          rw [hrun]
          exact cleanupExit_props env _ false [] hdm hda
        | true =>
          exfalso
          rcases hfail with hf | hf | ⟨_, hfv⟩ | hf
          · rw [h1] at hf
            simp at hf
          · rw [audioFormatCheck_valid] at hf
            simp at hf
          · rw [h3] at hfv
            simp at hfv
          · rw [h4] at hf
            simp at hf

/-- Witness for C6: a 2-second video submission aborts with no side effects. -/
theorem c6_validation_failure_aborts_witness :
    ((run_submission shortClipEnv).errorShown).isSome = true ∧
    (run_submission shortClipEnv).succeeded = false ∧
    (run_submission shortClipEnv).allocRead = false ∧
    (run_submission shortClipEnv).uploadedFiles = [] ∧
    (run_submission shortClipEnv).ledger = shortClipEnv.ledger ∧
    (run_submission shortClipEnv).mediaTempExists = false ∧
    (run_submission shortClipEnv).audioTempExists = false :=
  c6_validation_failure_aborts shortClipEnv rfl rfl rfl rfl
    (Or.inr (Or.inr (Or.inl ⟨rfl, by decide⟩)))

/-- C7: when both uploads succeed and the row append then raises, the handler
surfaces an error and deletes only the local temp files: both uploaded files
stay in storage (no compensating rollback) and no row is recorded. -/
theorem c7_append_failure_keeps_uploads (env : SubmissionEnv)
    (hms : env.mediaSaveOk = true) (has : env.audioSaveOk = true)
    (hdm : env.mediaDelOk = true) (hda : env.audioDelOk = true)
    (hfmt : (mediaFormatCheck env).valid = true)
    (hvid : env.mode = Mode.video → (videoDurationCheck env).valid = true)
    (haud : (audioDurationCheck env).valid = true)
    (hmu : env.mediaUploadOk = true) (hau : env.audioUploadOk = true)
    (hap : env.appendOk = false) :
    ((run_submission env).errorShown).isSome = true ∧
    (run_submission env).succeeded = false ∧
    (run_submission env).uploadedFiles =
      [(mediaNewName env, mediaFolderName env.mode),
       (audioNewName env, audioFolderName env.mode)] ∧
    (run_submission env).ledger = env.ledger ∧
    (run_submission env).mediaTempExists = false ∧
    (run_submission env).audioTempExists = false := by
  have hrun : run_submission env = cleanupExit env
      (some "Error processing submission: append row failed") true
      [(mediaNewName env, mediaFolderName env.mode),
       (audioNewName env, audioFolderName env.mode)] := by
    unfold run_submission
    cases hm : env.mode with
    | image => simp [hms, has, hfmt, audioFormatCheck_valid, hm, haud, hmu, hau, hap]
    | video => simp [hms, has, hfmt, audioFormatCheck_valid, hm, hvid hm, haud, hmu, hau, hap]
  rw [hrun]
  have h := cleanupExit_props env "Error processing submission: append row failed" true
    [(mediaNewName env, mediaFolderName env.mode),
     (audioNewName env, audioFolderName env.mode)] hdm hda
  exact ⟨h.1, h.2.1, h.2.2.2.1, h.2.2.2.2.1, h.2.2.2.2.2.1, h.2.2.2.2.2.2⟩

/-- Witness for C7: append fails after uploads; both files stay uploaded and
the ledger is unchanged. -/
theorem c7_append_failure_keeps_uploads_witness :
    ((run_submission appendFailEnv).errorShown).isSome = true ∧
    (run_submission appendFailEnv).succeeded = false ∧
    (run_submission appendFailEnv).uploadedFiles =
      [(mediaNewName appendFailEnv, mediaFolderName appendFailEnv.mode),
       (audioNewName appendFailEnv, audioFolderName appendFailEnv.mode)] ∧
    (run_submission appendFailEnv).ledger = appendFailEnv.ledger ∧
    (run_submission appendFailEnv).mediaTempExists = false ∧
    (run_submission appendFailEnv).audioTempExists = false :=
  c7_append_failure_keeps_uploads appendFailEnv rfl rfl rfl rfl (by decide)
    (fun hm => absurd hm (by decide)) (by decide) rfl rfl rfl

/-! ### Claim theorems about temp-file cleanup (C8) -/

theorem deleteLoop_snd_le (o : Nat → DelOutcome) :
    ∀ (k m a : Nat), m - a ≤ k → (deleteLoop o m a).2 ≤ max m a := by
  intro k
  induction k with
  | zero =>
    intro m a h
    unfold deleteLoop
    rw [dif_neg (by omega)]
    exact le_max_right m a
  | succ k ih =>
    intro m a h
    unfold deleteLoop
    by_cases hlt : a < m
    · rw [dif_pos hlt]
      cases ho : o a with
      | ok => exact le_trans (Nat.succ_le_of_lt hlt) (le_max_left m a)
      | permErr =>
        by_cases h2 : a < m - 1
        · rw [if_pos h2]
          have h3 := ih m (a + 1) (by omega)
          have e1 : max m (a + 1) = m := Nat.max_eq_left (by omega)
          have e2 : max m a = m := Nat.max_eq_left (by omega)
          rw [e2]
          rw [e1] at h3
          exact h3
        · rw [if_neg h2]
          exact le_trans (Nat.succ_le_of_lt hlt) (le_max_left m a)
      | otherErr => exact le_trans (Nat.succ_le_of_lt hlt) (le_max_left m a)
    · rw [dif_neg hlt]
      exact le_max_right m a

theorem safe_delete_attempts_le (fe : Bool) (o : Nat → DelOutcome) :
    (safe_delete_file fe o 3).2 ≤ 3 := by
  cases fe with
  | false => exact Nat.zero_le 3
  | true =>
    have h := deleteLoop_snd_le o 3 3 0 (by omega)
    simpa using h

/-- After both temp saves succeed, every exit path of the handler runs the
cleanup, so when OS deletion cooperates both temp files are gone. -/
theorem run_submission_deletes_temps (env : SubmissionEnv)
    (hms : env.mediaSaveOk = true) (has : env.audioSaveOk = true)
    (hdm : env.mediaDelOk = true) (hda : env.audioDelOk = true) :
    (run_submission env).mediaTempExists = false ∧
    (run_submission env).audioTempExists = false := by
  unfold run_submission
  split_ifs <;> simp_all [cleanupExit]

set_option maxHeartbeats 1000000 in
/-- The OS deletion outcome only affects whether the temp files remain; the
reported error, success flag, ledger and uploads are unchanged (deletion
failure is non-fatal). -/
theorem run_submission_del_frame (env : SubmissionEnv) (b1 b2 : Bool) :
    (run_submission { env with mediaDelOk := b1, audioDelOk := b2 }).errorShown =
      (run_submission env).errorShown ∧
    (run_submission { env with mediaDelOk := b1, audioDelOk := b2 }).succeeded =
      (run_submission env).succeeded ∧
    (run_submission { env with mediaDelOk := b1, audioDelOk := b2 }).ledger =
      (run_submission env).ledger ∧
    (run_submission { env with mediaDelOk := b1, audioDelOk := b2 }).uploadedFiles =
      (run_submission env).uploadedFiles := by
  have p1 : mediaFormatCheck { env with mediaDelOk := b1, audioDelOk := b2 } =
      mediaFormatCheck env := rfl
  have p2 : videoDurationCheck { env with mediaDelOk := b1, audioDelOk := b2 } =
      videoDurationCheck env := rfl
  have p3 : audioDurationCheck { env with mediaDelOk := b1, audioDelOk := b2 } =
      audioDurationCheck env := rfl
  have p4 : mediaNewName { env with mediaDelOk := b1, audioDelOk := b2 } =
      mediaNewName env := rfl
  have p5 : audioNewName { env with mediaDelOk := b1, audioDelOk := b2 } =
      audioNewName env := rfl
  have q1 : ({ env with mediaDelOk := b1, audioDelOk := b2 } : SubmissionEnv).mediaSaveOk =
      env.mediaSaveOk := rfl
  have q2 : ({ env with mediaDelOk := b1, audioDelOk := b2 } : SubmissionEnv).audioSaveOk =
      env.audioSaveOk := rfl
  have q3 : ({ env with mediaDelOk := b1, audioDelOk := b2 } : SubmissionEnv).mode =
      env.mode := rfl
  have q4 : ({ env with mediaDelOk := b1, audioDelOk := b2 } : SubmissionEnv).mediaUploadOk =
      env.mediaUploadOk := rfl
  have q5 : ({ env with mediaDelOk := b1, audioDelOk := b2 } : SubmissionEnv).audioUploadOk =
      env.audioUploadOk := rfl
  have q6 : ({ env with mediaDelOk := b1, audioDelOk := b2 } : SubmissionEnv).appendOk =
      env.appendOk := rfl
  have q7 : ({ env with mediaDelOk := b1, audioDelOk := b2 } : SubmissionEnv).ledger =
      env.ledger := rfl
  have q8 : ({ env with mediaDelOk := b1, audioDelOk := b2 } : SubmissionEnv).msaCaption =
      env.msaCaption := rfl
  have q9 : ({ env with mediaDelOk := b1, audioDelOk := b2 } : SubmissionEnv).sudaneseCaption =
      env.sudaneseCaption := rfl
  have q10 : ({ env with mediaDelOk := b1, audioDelOk := b2 } : SubmissionEnv).category =
      env.category := rfl
  refine ⟨?_, ?_, ?_, ?_⟩ <;>
    (unfold run_submission
     simp only [p1, p2, p3, p4, p5, q1, q2, q3, q4, q5, q6, q7, q8, q9, q10]
     split_ifs <;> simp [cleanupExit])

/-- C8 (amended): once both temporary saves succeed, every exit path of the
handler deletes both temp files; `safe_delete_file` makes at most 3 unlink
attempts; and a deletion failure is non-fatal — it changes nothing in the
handler's outcome besides which temp files remain. (The unamended claim fails
on the early return where one temporary save fails: see the counterexample.) -/
theorem c8_amended_cleanup :
    (∀ env : SubmissionEnv, env.mediaSaveOk = true → env.audioSaveOk = true →
      env.mediaDelOk = true → env.audioDelOk = true →
      (run_submission env).mediaTempExists = false ∧
      (run_submission env).audioTempExists = false) ∧
    (∀ (fe : Bool) (o : Nat → DelOutcome), (safe_delete_file fe o 3).2 ≤ 3) ∧
    (∀ (env : SubmissionEnv) (b1 b2 : Bool),
      (run_submission { env with mediaDelOk := b1, audioDelOk := b2 }).errorShown =
        (run_submission env).errorShown ∧
      (run_submission { env with mediaDelOk := b1, audioDelOk := b2 }).succeeded =
        (run_submission env).succeeded ∧
      (run_submission { env with mediaDelOk := b1, audioDelOk := b2 }).ledger =
        (run_submission env).ledger ∧
      (run_submission { env with mediaDelOk := b1, audioDelOk := b2 }).uploadedFiles =
        (run_submission env).uploadedFiles) :=
  ⟨run_submission_deletes_temps, safe_delete_attempts_le, run_submission_del_frame⟩

/-- Counterexample to C8 as stated: on the save-failure early return
(`if not media_temp_path or not audio_temp_path: return`) the already-created
media temp file is not deleted, although OS deletion would have succeeded. -/
theorem c8_counterexample_save_failure :
    (run_submission saveFailEnv).mediaTempCreated = true ∧
    (run_submission saveFailEnv).mediaTempExists = true ∧
    saveFailEnv.mediaDelOk = true := by
  refine ⟨by decide, by decide, rfl⟩

/-- Witness for the amended C8: a concrete successful submission deletes both
temps, and a concrete always-failing deleter stops after 3 attempts. -/
theorem c8_amended_cleanup_witness :
    ((run_submission cleanupEnv).mediaTempExists = false ∧
      (run_submission cleanupEnv).audioTempExists = false) ∧
    (safe_delete_file true (fun _ => DelOutcome.permErr) 3).2 ≤ 3 := by
  obtain ⟨h1, h2, _⟩ := c8_amended_cleanup
  exact ⟨h1 cleanupEnv rfl rfl rfl rfl, h2 true (fun _ => DelOutcome.permErr)⟩

/-! ### Claim theorems about ID allocation (C1, C2, C3) -/

/-- C1: `get_next_id` returns the mode's prefix followed by `get_max_id + 1`,
and this numeric suffix strictly exceeds the numeric suffix of every
well-formed ID of that mode present in the ledger's data rows. -/
theorem c1_next_id_exceeds_existing (led : Ledger) (mode : Mode)
    (row : List String) (cell : String) (n : Nat)
    (hrow : row ∈ ((read_sheet led mode).1).drop 1)
    (hcell : row.head? = some cell)
    (hwf : wellFormedSuffix? mode cell = some n) :
    (get_next_id led mode).1 = modePrefix mode ++ toString ((get_max_id led mode).1 + 1) ∧
    (n : Int) < (get_max_id led mode).1 + 1 := by
  refine ⟨rfl, ?_⟩
  have hparse := parseIdNum_of_wellFormed hwf
  have hlen : ¬ ((read_sheet led mode).1.length ≤ 1) := by
    intro hle
    rw [drop_one_nil_of_length_le_one hle] at hrow
    cases hrow
  have hb : (n : Int) ≤ maxFold (modePrefix mode) (((read_sheet led mode).1).drop 1) 0 :=
    num_le_maxFold 0 hrow hcell hparse
  have he : (get_max_id led mode).1 = get_max_id_rows mode (read_sheet led mode).1 := rfl
  rw [he]
  unfold get_max_id_rows
  rw [if_neg hlen]
  omega

/-- Witness for C1: with `img_3` in the ledger, the next image ID is
`img_` followed by `max + 1`, and 3 is strictly below that suffix. -/
theorem c1_next_id_exceeds_existing_witness :
    (get_next_id { images := [["id"], ["img_3"]], videos := [] } Mode.image).1 =
      modePrefix Mode.image ++
        toString ((get_max_id { images := [["id"], ["img_3"]], videos := [] } Mode.image).1 + 1) ∧
    ((3 : Nat) : Int) <
      (get_max_id { images := [["id"], ["img_3"]], videos := [] } Mode.image).1 + 1 :=
  c1_next_id_exceeds_existing { images := [["id"], ["img_3"]], videos := [] } Mode.image
    ["img_3"] "img_3" 3 (by decide) (by decide) (by decide)

/-- Counterexample to C2 as stated: the cell `img_7_0` has a non-numeric
suffix (`7_0`), so the claim says it is malformed and ignored — but the scan
takes the text between the first and second underscore and returns 7, not 0. -/
theorem c2_counterexample_embedded_underscore :
    wellFormedSuffix? Mode.image "img_7_0" = none ∧
    (get_max_id { images := [["id"], ["img_7_0"]], videos := [] } Mode.image).1 = 7 ∧
    (get_max_id { images := [["id"]], videos := [] } Mode.image).1 = 0 :=
  ⟨by decide, by decide, by decide⟩

/-- C2 (amended): `get_max_id` ignores the header row's content; a row whose
first cell the scan cannot parse (wrong prefix, empty row, or no integer
between the first and second underscore) never affects the result; if no row
parses the result is 0 (in particular for an empty tab or a header-only tab);
the result is the maximum of the parsed values; and the `img_3` example
allocates `img_4` next.  (Unlike the unamended claim, a cell of the shape
`prefix_number_extra` is parsed — contributing the number before the second
underscore — rather than ignored.) -/
theorem c2_amended_max_id_scan :
    (∀ (mode : Mode) (hd1 hd2 : List String) (rest : List (List String)),
      get_max_id_rows mode (hd1 :: rest) = get_max_id_rows mode (hd2 :: rest)) ∧
    (∀ (mode : Mode) (hdr bad : List String) (l1 l2 : List (List String)),
      bad.head?.bind (parseIdNum (modePrefix mode)) = none →
      get_max_id_rows mode (hdr :: (l1 ++ bad :: l2)) =
        get_max_id_rows mode (hdr :: (l1 ++ l2))) ∧
    (∀ (mode : Mode) (rows : List (List String)),
      (∀ row ∈ rows.drop 1, row.head?.bind (parseIdNum (modePrefix mode)) = none) →
      get_max_id_rows mode rows = 0) ∧
    (∀ (mode : Mode) (rows : List (List String)) (row : List String)
        (cell : String) (num : Int),
      row ∈ rows.drop 1 → row.head? = some cell →
      parseIdNum (modePrefix mode) cell = some num →
      num ≤ get_max_id_rows mode rows) ∧
    (∀ (mode : Mode) (rows : List (List String)),
      get_max_id_rows mode rows = 0 ∨
      ∃ row ∈ rows.drop 1, ∃ cell num, row.head? = some cell ∧
        parseIdNum (modePrefix mode) cell = some num ∧ get_max_id_rows mode rows = num) ∧
    (get_next_id { images := [["id"], ["img_1"], ["img_3"], ["img_2"]], videos := [] }
      Mode.image).1 = "img_4" := by
  refine ⟨?_, ?_, ?_, ?_, ?_, by decide⟩
  · intro mode hd1 hd2 rest
    rfl
  · intro mode hdr bad l1 l2 hb
    unfold get_max_id_rows
    have hL : ¬ ((hdr :: (l1 ++ bad :: l2)).length ≤ 1) := by simp
    rw [if_neg hL]
    by_cases hR : ((hdr :: (l1 ++ l2)).length ≤ 1)
    · rw [if_pos hR]
      have hlen : l1.length + l2.length = 0 := by
        have hR2 := hR
        simp only [List.length_cons, List.length_append] at hR2
        omega
      obtain rfl : l1 = [] := List.length_eq_zero.mp (by omega)
      obtain rfl : l2 = [] := List.length_eq_zero.mp (by omega)
      simp only [List.nil_append, List.drop_succ_cons, List.drop_zero]
      show maxFold (modePrefix mode) [bad] 0 = 0
      have hs := @maxStep_eq_of_unparsed (modePrefix mode) bad 0 hb
      simp [maxFold, hs]
    · rw [if_neg hR]
      simp only [List.drop_succ_cons, List.drop_zero]
      exact maxFold_erase l1 l2 0 hb
  · intro mode rows hall
    unfold get_max_id_rows
    by_cases h : rows.length ≤ 1
    · rw [if_pos h]
    · rw [if_neg h]
      exact maxFold_eq_of_all_unparsed 0 hall
  · intro mode rows row cell num hrow hcell hn
    have hlen : ¬ (rows.length ≤ 1) := by
      intro hle
      rw [drop_one_nil_of_length_le_one hle] at hrow
      cases hrow
    unfold get_max_id_rows
    rw [if_neg hlen]
    exact num_le_maxFold 0 hrow hcell hn
  · intro mode rows
    by_cases h : rows.length ≤ 1
    · left
      unfold get_max_id_rows
      rw [if_pos h]
    · have ha := maxFold_attained (modePrefix mode) (rows.drop 1) 0
      unfold get_max_id_rows
      rw [if_neg h]
      exact ha

/-- Witness for the amended C2: deleting an unparsable row leaves the scan's
result unchanged on a concrete ledger tab. -/
theorem c2_amended_max_id_scan_witness :
    get_max_id_rows Mode.image (["id"] :: ([] ++ ["not-an-id"] :: [["img_5"]])) =
      get_max_id_rows Mode.image (["id"] :: ([] ++ [["img_5"]])) :=
  c2_amended_max_id_scan.2.1 Mode.image ["id"] ["not-an-id"] [] [["img_5"]] (by decide)

/-- C3: allocation is read-only and idempotent — `get_next_id` (and
`get_max_id`) leave the ledger unchanged, and a second run against the
resulting state returns the same ID. -/
theorem c3_allocation_idempotent (led : Ledger) (mode : Mode) :
    (get_next_id led mode).2 = led ∧
    (get_max_id led mode).2 = led ∧
    (get_next_id ((get_next_id led mode).2) mode).1 = (get_next_id led mode).1 :=
  ⟨rfl, rfl, rfl⟩

/-- Witness for C3 at a concrete ledger. -/
theorem c3_allocation_idempotent_witness :
    (get_next_id { images := [["id"], ["img_2"]], videos := [] } Mode.image).2 =
      { images := [["id"], ["img_2"]], videos := [] } ∧
    (get_max_id { images := [["id"], ["img_2"]], videos := [] } Mode.image).2 =
      { images := [["id"], ["img_2"]], videos := [] } ∧
    (get_next_id ((get_next_id { images := [["id"], ["img_2"]], videos := [] }
        Mode.image).2) Mode.image).1 =
      (get_next_id { images := [["id"], ["img_2"]], videos := [] } Mode.image).1 :=
  c3_allocation_idempotent { images := [["id"], ["img_2"]], videos := [] } Mode.image

end SudanMM
